import Mathlib

/-!
Shallow embedding of the crewsynq-server repository (src/index.js,
src/adsbAdapter.js, and the two route revisions in src/unnamed/part_000),
together with theorems settling the frozen claims about it.

JavaScript numbers are modelled as exact rationals plus the non-finite
sentinels; the geographic math (which the source performs with Math.sin,
Math.cos, Math.atan2, Math.sqrt) is modelled over the reals.
-/

/-- Model of a JavaScript number value: a finite rational or one of the
non-finite sentinels (NaN, Infinity, -Infinity). -/
inductive JsNum where
  | num (q : ℚ)
  | nan
  | posInf
  | negInf
deriving DecidableEq

/-- JS `Number.isFinite` on a number value. -/
def JsNum.isFinite : JsNum → Bool
  | .num _ => true
  | _ => false

/-- JS `Number.isFinite` applied to a possibly-undefined value
(`Number.isFinite(undefined)` is `false`). -/
def jsFiniteOpt : Option JsNum → Bool
  | some v => v.isFinite
  | none => false

/-- JS `Math.round`: round half towards positive infinity. -/
def jsRound (q : ℚ) : ℤ := ⌊q + 1 / 2⌋

/-- JS nullish coalescing `a ?? b` between possibly-missing values. -/
def jsCoalesce {α : Type} (a b : Option α) : Option α :=
  match a with
  | some x => some x
  | none => b

/-- JS `a || d` for string values: the empty string is falsy. -/
def jsOrString (a : Option String) (d : String) : String :=
  match a with
  | some s => if s = "" then d else s
  | none => d

/-- JS `f.latitude >= b`-style comparison of a possibly-missing number value
with a finite number: comparisons with `undefined` or `NaN` are false,
`Infinity` compares as larger than every finite number. -/
def jsGeB (a : Option JsNum) (b : ℚ) : Bool :=
  match a with
  | some (.num q) => decide (b ≤ q)
  | some .posInf => true
  | _ => false

/-- JS `f.latitude <= b`-style comparison (see `jsGeB`). -/
def jsLeB (a : Option JsNum) (b : ℚ) : Bool :=
  match a with
  | some (.num q) => decide (q ≤ b)
  | some .negInf => true
  | _ => false

namespace AdsbFi

/-- Value of the adsb.fi `alt_baro` / `alt_geom` fields when present: the
string "ground" or a number of feet. -/
inductive AltValue where
  | ground
  | alt (x : ℚ)
deriving DecidableEq

/-- Raw aircraft object from the adsb.fi JSON feed, restricted to the fields
the source reads (src/adsbAdapter.js). -/
structure Ac where
  category : Option String
  alt_baro : Option AltValue
  alt_geom : Option AltValue
  gs : Option ℚ
  track : Option ℚ
  lat : Option JsNum
  lon : Option JsNum
  flight : Option String
  t : Option String
  hex : String
  seen_pos : Option ℚ
  seen : Option ℚ
deriving DecidableEq

/-- Canonical flight record produced by `mapAdsbFiToFlight`
(src/adsbAdapter.js lines 51-72). `last_seen` is kept as the
epoch-milliseconds value fed to `new Date(...)`; `altitude` is a raw JS
number because `Math.round(undefined)` is NaN when both altitude fields are
absent. -/
structure Flight where
  callsign : String
  type : String
  latitude : Option JsNum
  longitude : Option JsNum
  altitude : JsNum
  speed : Option ℤ
  heading : Option ℤ
  status : String
  agency : Option String
  last_seen : ℚ
  icao24 : String
deriving DecidableEq

/-- mapAdsbFiToFlight (src/adsbAdapter.js lines 51-72). -/
def mapAdsbFiToFlight (ac : Ac) : Flight :=
  let alt := jsCoalesce ac.alt_baro ac.alt_geom
  let lastSeenEpoch := ((jsCoalesce ac.seen_pos ac.seen).getD 0) * 1000
  { callsign := jsOrString (some ((ac.flight.getD "").trim)) ac.hex
    type := jsOrString ac.t "other"
    latitude := ac.lat
    longitude := ac.lon
    altitude :=
      match alt with
      | some .ground => .num 0
      | some (.alt x) => .num (jsRound x)
      | none => .nan
    speed :=
      match ac.gs with
      | some q => if q = 0 then none else some (jsRound q)
      | none => none
    heading :=
      match ac.track with
      | some q => if q = 0 then none else some (jsRound q)
      | none => none
    status := if alt = some .ground then "landed" else "active"
    agency := none
    last_seen := lastSeenEpoch
    icao24 := ac.hex }

/-- likelyHeli (src/adsbAdapter.js lines 78-89): category "A5" classifies
positive immediately; otherwise the kinematic fallback applies. -/
def likelyHeli (ac : Ac) : Bool :=
  if ac.category = some "A5" then true
  else
    let alt := jsCoalesce ac.alt_baro ac.alt_geom
    let altOk :=
      match alt with
      | none => true
      | some .ground => true
      | some (.alt x) => decide (x < 9000)
    let spdOk :=
      match ac.gs with
      | none => true
      | some v => decide (v < 160)
    altOk && spdOk

/-- The flight list assembled by fetchFlightStates (src/adsbAdapter.js lines
121-126) from the parsed `json.aircraft` array: the position filter
`ac.lat != null && ac.lon != null` followed by mapping each survivor and
tagging it with its `likelyHeli` flag. -/
def fetchFlightStatesFlights (aircraft : List Ac) : List (Flight × Bool) :=
  (aircraft.filter (fun ac => ac.lat.isSome && ac.lon.isSome)).map
    (fun ac => (mapAdsbFiToFlight ac, likelyHeli ac))

end AdsbFi

namespace OpenSky

/-- OpenSky state vector: the entries of `json.states[i]` that toFlight
(src/index.js lines 141-157) reads, by index. Altitudes are metres,
velocity is m/s. -/
structure StateVec where
  icao24 : String
  callsign : Option String
  time_position : Option ℚ
  last_contact : Option ℚ
  longitude : Option JsNum
  latitude : Option JsNum
  baro_altitude : Option ℚ
  on_ground : Bool
  velocity : Option ℚ
  true_track : Option ℚ
  geo_altitude : Option ℚ
deriving DecidableEq

/-- Canonical flight record produced by toFlight (src/index.js). -/
structure Flight where
  callsign : String
  type : String
  latitude : Option JsNum
  longitude : Option JsNum
  altitude : Option ℤ
  speed : Option ℤ
  heading : Option ℚ
  status : String
  agency : Option String
  last_seen : ℚ
  icao24 : String
deriving DecidableEq

/-- The metres-to-feet helper `m2ft` from toFlight. -/
def m2ft (m : Option ℚ) : Option ℤ :=
  match m with
  | none => none
  | some x => some (jsRound (x * 3.28084))

/-- The m/s-to-knots helper `ms2kt` from toFlight. -/
def ms2kt (m : Option ℚ) : Option ℤ :=
  match m with
  | none => none
  | some x => some (jsRound (x * 1.94384))

/-- JS `s[4] || s[3] || 0` where 0 is falsy. -/
def jsOrChain (a b : Option ℚ) : ℚ :=
  match a with
  | some x => if x = 0 then (match b with | some y => y | none => 0) else x
  | none => match b with | some y => if y = 0 then 0 else y | none => 0

/-- toFlight (src/index.js lines 141-157). Note: altitude is
`m2ft(s[13] ?? s[7])` (geometric first, barometric as fallback) and is not
altered by the on-ground flag; only `status` looks at `s[8]`. -/
def toFlight (s : StateVec) : Flight :=
  { callsign := jsOrString (some ((s.callsign.getD "").trim)) s.icao24
    type := "other"
    latitude := s.latitude
    longitude := s.longitude
    altitude := m2ft (jsCoalesce s.geo_altitude s.baro_altitude)
    speed := ms2kt s.velocity
    heading := s.true_track
    status := if s.on_ground then "landed" else "active"
    agency := none
    last_seen := (jsOrChain s.last_contact s.time_position) * 1000
    icao24 := s.icao24 }

/-- likelyHeli (src/index.js lines 158-162): a purely kinematic check over
the normalized flight record; there is no category tier here. -/
def likelyHeli (f : Flight) : Bool :=
  let altOk :=
    match f.altitude with
    | none => true
    | some a => decide (a < 9000)
  let spdOk :=
    match f.speed with
    | none => true
    | some v => decide (v < 160)
  altOk && spdOk

/-- The flight list built by the /api/heli/live route of src/index.js
(lines 189-192): map toFlight, keep only finite positions, tag with
likelyHeli. -/
def heliLiveFlights (states : List StateVec) : List (Flight × Bool) :=
  (((states.map toFlight).filter
      (fun f => jsFiniteOpt f.latitude && jsFiniteOpt f.longitude)).map
    (fun f => (f, likelyHeli f)))

end OpenSky

/-- Error response body shape sent by the /api/heli/live catch blocks. -/
structure ErrResponse where
  status : ℕ
  ok : Bool
  error : String
  detail : String
deriving DecidableEq

/-- Outcome of a route handler: a 200 success carrying a payload, or an
error response produced by the catch block. -/
inductive HandlerOut (P : Type) where
  | success (status : ℕ) (payload : P)
  | failure (e : ErrResponse)

/-- The /api/heli/live handler of src/index.js (lines 185-199), abstracted
over the outcome of `fetchOpenSkyStates`: a thrown error reaches the catch
block, which answers 502 upstream_failure. -/
def heliLiveRespondOpenSky {P : Type} (r : Except String P) : HandlerOut P :=
  match r with
  | .ok p => .success 200 p
  | .error msg => .failure { status := 502, ok := false, error := "upstream_failure", detail := msg }

/-- The /api/heli/live handler of the regional-cache revision
(src/unnamed/part_000, first file, lines 86-93), abstracted over the body's
outcome: every thrown error is answered with 500 internal_server_error. -/
def heliLiveRespondRegional {P : Type} (r : Except String P) : HandlerOut P :=
  match r with
  | .ok p => .success 200 p
  | .error msg => .failure { status := 500, ok := false, error := "internal_server_error", detail := msg }

/-- The /api/heli/live handler of the adapter revision
(src/unnamed/part_000, second file, lines 165-173): a thrown error is
answered with 502 upstream_failure. -/
def heliLiveRespondAdapter {P : Type} (r : Except String P) : HandlerOut P :=
  match r with
  | .ok p => .success 200 p
  | .error msg => .failure { status := 502, ok := false, error := "upstream_failure", detail := msg }

/-- A latitude/longitude bounding box, as destructured by
bboxToCenterRadius and produced by getRegionalBbox. Over the reals, since
these feed the trigonometric query-shaping math. -/
structure Bbox where
  lamin : ℝ
  lamax : ℝ
  lomin : ℝ
  lomax : ℝ

namespace Regional

/-- CACHE_TTL_MS of the regional-cache revision (src/unnamed/part_000). -/
def CACHE_TTL_MS : ℕ := 30000

/-- A REGIONAL_CACHE entry: `{ timestamp, flights }`. -/
structure Entry where
  timestamp : ℕ
  flights : List (AdsbFi.Flight × Bool)
deriving DecidableEq

/-- ECMAScript `Number.prototype.toFixed(1)`, rendered as the pair
(sign printed, number of tenths). The sign is part of the rendered string:
toFixed(1) of a negative number prints a leading minus even when the
rounded magnitude is zero, so (-0.04).toFixed(1) is "-0.0" while
(0.04).toFixed(1) is "0.0". Of the two candidate integers at a tie, ECMA
picks the larger, applied to the magnitude. -/
def toFixed1 (x : ℚ) : Bool × ℕ :=
  if x < 0 then (true, (⌊-x * 10 + 1 / 2⌋).toNat) else (false, (⌊x * 10 + 1 / 2⌋).toNat)

/-- The numeric value (in degrees) denoted by the rendered `toFixed1`
string: its sign applied to its tenths. -/
def toFixed1Value (x : ℚ) : ℚ :=
  if (toFixed1 x).1 then -(((toFixed1 x).2 : ℚ) / 10) else ((toFixed1 x).2 : ℚ) / 10

/-- regionalKey (src/unnamed/part_000 lines 47-50): the pair of rendered
`toFixed(1)` strings of the viewport center. -/
def regionalKey (centerLat centerLon : ℚ) : (Bool × ℕ) × (Bool × ℕ) :=
  (toFixed1 centerLat, toFixed1 centerLon)

/-- getRegionalBbox (src/unnamed/part_000 lines 18-29): a 50 km-radius box
around the (unquantized) request center. -/
noncomputable def getRegionalBbox (centerLat centerLon : ℝ) : Bbox :=
  let radiusKm : ℝ := 50
  let latOffset := radiusKm / 111.0
  let lonOffset := radiusKm / (111.32 * Real.cos (centerLat * (Real.pi / 180)))
  { lamin := centerLat - latOffset
    lamax := centerLat + latOffset
    lomin := centerLon - lonOffset
    lomax := centerLon + lonOffset }

/-- Observable result of one /api/heli/live request in the regional-cache
revision: whether the adapter was invoked, the center its regional bbox
was derived from, the regional flight list used, the cache afterwards, and
the response payload fields. -/
structure HandlerResult where
  invoked : Bool
  fetchCenter : ℚ × ℚ
  regionalFlights : List (AdsbFi.Flight × Bool)
  cacheAfter : ((Bool × ℕ) × (Bool × ℕ)) → Option Entry
  time : ℕ
  count : ℕ
  flights : List (AdsbFi.Flight × Bool)

/-- The /api/heli/live handler of the regional-cache revision
(src/unnamed/part_000 lines 39-84), abstracted over the adapter: `fetched`
is the flight list `adsbAdapter.fetchFlightStates(regionalBbox)` would
resolve with, consumed only on a miss. Times are epoch milliseconds.
Note `payload.time` reads the pre-refresh `cached` binding through
`cached?.timestamp || now`, where a 0 timestamp is falsy. -/
def heliLive (cache : ((Bool × ℕ) × (Bool × ℕ)) → Option Entry) (now : ℕ)
    (south north west east : ℚ) (fetched : List (AdsbFi.Flight × Bool)) :
    HandlerResult :=
  let centerLat := (south + north) / 2
  let centerLon := (west + east) / 2
  let key := regionalKey centerLat centerLon
  let cached := cache key
  let isFresh : Bool :=
    match cached with
    | some e => decide (now - e.timestamp < CACHE_TTL_MS)
    | none => false
  let regionalFlights := match cached with
    | some e => if now - e.timestamp < CACHE_TTL_MS then e.flights else fetched
    | none => fetched
  let cacheAfter := if isFresh then cache
    else fun k => if k = key then some { timestamp := now, flights := fetched } else cache k
  let visible := regionalFlights.filter (fun f =>
    jsGeB f.1.latitude south && jsLeB f.1.latitude north &&
    jsGeB f.1.longitude west && jsLeB f.1.longitude east)
  let time := (match cached with
    | some e => if e.timestamp = 0 then now else e.timestamp
    | none => now) / 1000
  { invoked := !isFresh
    fetchCenter := (centerLat, centerLon)
    regionalFlights := regionalFlights
    cacheAfter := cacheAfter
    time := time
    count := visible.length
    flights := visible }

end Regional

namespace AdsbRoute

/-- CACHE_MS of the /api/adsb route (src/index.js line 138). -/
def CACHE_MS : ℕ := 5000

/-- An ADSB_CACHE entry: `{ at, payload }` (src/index.js line 137). The
payload is kept abstract: the route stores and serves it whole. -/
structure Entry (P : Type) where
  at_ : ℕ
  payload : P

/-- The /api/adsb route body (src/index.js lines 166-182), abstracted over
the key and the upstream payload a fetch would produce: returns whether
fetchOpenSkyStates was awaited, the served payload, and the cache
afterwards. -/
def route {K P : Type} [DecidableEq K] (cache : K → Option (Entry P)) (now : ℕ)
    (key : K) (fetchedPayload : P) : Bool × P × (K → Option (Entry P)) :=
  match cache key with
  | some c =>
    if now - c.at_ < CACHE_MS then (false, c.payload, cache)
    else (true, fetchedPayload,
      fun k => if k = key then some { at_ := now, payload := fetchedPayload } else cache k)
  | none => (true, fetchedPayload,
      fun k => if k = key then some { at_ := now, payload := fetchedPayload } else cache k)

end AdsbRoute

/-- Is a character an ASCII decimal digit. -/
def charIsDigit (c : Char) : Bool := 48 ≤ c.toNat && c.toNat ≤ 57

/-- Numeric value of an ASCII digit. -/
def charVal (c : Char) : ℕ := c.toNat - 48

/-- Take the longest digit run from the front, returning the digit values
and the unconsumed suffix. -/
def takeDigits : List Char → List ℕ × List Char
  | [] => ([], [])
  | c :: rest =>
    if charIsDigit c then
      let p := takeDigits rest
      (charVal c :: p.1, p.2)
    else ([], c :: rest)

/-- Integer value of a digit list (most significant first). -/
def intVal (ds : List ℕ) : ℕ := ds.foldl (fun acc d => acc * 10 + d) 0

/-- Fractional value of a digit list read after the decimal point. -/
def fracVal (ds : List ℕ) : ℚ := ds.foldr (fun d acc => ((d : ℚ) + acc) / 10) 0

/-- Parse an optional sign followed by `digits [. digits]`, returning the
value and the unconsumed suffix, or none when no digit was found. This is
the decimal fragment of the ECMAScript numeric-literal grammar; the
exponent and Infinity forms do not occur in this repository's inputs and
are not modelled. -/
def parseSignedDecimal (cs : List Char) : Option (ℚ × List Char) :=
  let p1 : Bool × List Char :=
    match cs with
    | '-' :: r => (true, r)
    | '+' :: r => (false, r)
    | _ => (false, cs)
  let p2 := takeDigits p1.2
  let p3 : List ℕ × List Char :=
    match p2.2 with
    | '.' :: r => takeDigits r
    | _ => ([], p2.2)
  if p2.1.isEmpty ∧ p3.1.isEmpty then none
  else
    let v : ℚ := (intVal p2.1 : ℚ) + fracVal p3.1
    some (if p1.1 then -v else v, p3.2)

/-- Is a character JS whitespace (the forms that matter here). -/
def charIsWs (c : Char) : Bool := c = ' ' || c = '\t' || c = '\n' || c = '\r'

/-- Strip leading and trailing whitespace from a character list. -/
def trimWs (cs : List Char) : List Char :=
  ((cs.dropWhile charIsWs).reverse.dropWhile charIsWs).reverse

/-- JS `parseFloat` on a string: skip leading whitespace, read the longest
numeric prefix, NaN when there is none. Trailing garbage is ignored. -/
def jsParseFloat (s : String) : JsNum :=
  match parseSignedDecimal (s.toList.dropWhile charIsWs) with
  | some (v, _) => .num v
  | none => .nan

/-- JS `parseFloat(q.field)` where the field may be absent
(`parseFloat(undefined)` is NaN). -/
def jsParseFloatOpt (o : Option String) : JsNum :=
  match o with
  | some s => jsParseFloat s
  | none => .nan

/-- JS `Number(...)` conversion of a character list: empty/whitespace-only
is 0; otherwise the whole string must be numeric, else NaN. -/
def jsNumberChars (cs : List Char) : JsNum :=
  let t := trimWs cs
  if t.isEmpty then .num 0
  else
    match parseSignedDecimal t with
    | some (v, rest) => if rest.isEmpty then .num v else .nan
    | none => .nan

/-- `split(",")` on a character list. -/
def splitCommaChars : List Char → List (List Char)
  | [] => [[]]
  | c :: rest =>
    match splitCommaChars rest with
    | [] => [[c]]
    | h :: t => if c = ',' then [] :: h :: t else (c :: h) :: t

/-- The query-string fields /api/* routes read (each possibly absent). -/
structure Query where
  lamin : Option String
  lamax : Option String
  lomin : Option String
  lomax : Option String
  bbox : Option String
deriving DecidableEq

/-- Result of parseBoundsFromQuery. A component is `none` when the JS value
would be `undefined` (a bbox string with fewer than four parts leaves the
trailing destructured components undefined). The route's cache key
`${lamin},${lamax},${lomin},${lomax}` is determined by these components, so
the record itself doubles as the key in this embedding. -/
structure Bounds where
  lamin : Option JsNum
  lamax : Option JsNum
  lomin : Option JsNum
  lomax : Option JsNum
deriving DecidableEq

/-- The string `DEFAULT_BBOX.join(",")` evaluates to under the default
environment: `"50.70,51.30,-114.40,-113.70".split(",").map(Number)` gives
[50.7, 51.3, -114.4, -113.7], and joining renders each number without its
trailing zero. -/
def DEFAULT_BBOX_STR : String := "50.7,51.3,-114.4,-113.7"

/-- parseBoundsFromQuery (src/index.js lines 62-83). The lamin/lamax shape
wins when all four parse to finite numbers; otherwise the bbox string (or,
when that is absent or empty and hence falsy, the default box string) is
split on commas and converted with `Number`, with no finiteness check. -/
def parseBoundsFromQuery (q : Query) : Bounds :=
  let lamin := jsParseFloatOpt q.lamin
  let lamax := jsParseFloatOpt q.lamax
  let lomin := jsParseFloatOpt q.lomin
  let lomax := jsParseFloatOpt q.lomax
  if lamin.isFinite && lamax.isFinite && lomin.isFinite && lomax.isFinite then
    { lamin := some lamin, lamax := some lamax, lomin := some lomin, lomax := some lomax }
  else
    let bboxStr : String :=
      match q.bbox with
      | some s => if s = "" then DEFAULT_BBOX_STR else s
      | none => DEFAULT_BBOX_STR
    let parts := (splitCommaChars bboxStr.toList).map jsNumberChars
    { lamin := parts.get? 0, lamax := parts.get? 1, lomin := parts.get? 2, lomax := parts.get? 3 }

/-- The Bounds value the default box parses to. -/
def defaultBounds : Bounds :=
  { lamin := some (.num (507 / 10)), lamax := some (.num (513 / 10))
    lomin := some (.num (-1144 / 10)), lomax := some (.num (-1137 / 10)) }

namespace OpenSky

/-- The process-wide OAuth2 token cache (src/index.js lines 23-24). -/
structure TokenState where
  cachedToken : Option String
  tokenExpiresAt : ℤ
deriving DecidableEq

/-- Parsed body of a successful token-endpoint response. -/
structure TokenJson where
  access_token : String
  expires_in : Option ℤ
deriving DecidableEq

/-- The token-refresh tail of getOpenSkyToken (src/index.js lines 31-58):
credential check, then the token POST, whose outcome is supplied as an
oracle (`.error` models a thrown fetch error or a non-ok token response). -/
def refreshToken (now : ℤ) (haveCreds : Bool)
    (resp : Except String TokenJson) : Except String (String × TokenState) :=
  if haveCreds then
    match resp with
    | .error msg => .error msg
    | .ok j =>
      .ok (j.access_token,
        { cachedToken := some j.access_token
          tokenExpiresAt := now + (j.expires_in.getD 1800) * 1000 })
  else .error "Missing OPEN_SKY_CLIENT_ID/OPEN_SKY_CLIENT_SECRET"

/-- getOpenSkyToken (src/index.js lines 26-59): serve the cached token while
`now < tokenExpiresAt - 60_000` (an empty cached token is falsy and does
not count), otherwise refresh. -/
def getOpenSkyToken (st : TokenState) (now : ℤ) (haveCreds : Bool)
    (resp : Except String TokenJson) : Except String (String × TokenState) :=
  match st.cachedToken with
  | some tok =>
    if tok ≠ "" ∧ now < st.tokenExpiresAt - 60000 then .ok (tok, st)
    else refreshToken now haveCreds resp
  | none => refreshToken now haveCreds resp

/-- The payload fetchOpenSkyStates resolves with. -/
structure StatesPayload where
  time : ℤ
  states : List StateVec
deriving DecidableEq

/-- Per-attempt environment of the fetchOpenSkyStates retry loop: the clock,
the token-endpoint outcome, the states request outcome (`.error` models a
thrown network/timeout error, `.ok s` an HTTP status), and the parsed body
used when the status is ok. -/
structure FetchEnv where
  now : ℕ → ℤ
  tokenResp : ℕ → Except String TokenJson
  httpResult : ℕ → Except String ℕ
  bodyTime : ℕ → Option ℤ
  bodyStates : ℕ → List StateVec

/-- The error string thrown for a non-ok, non-retried response. -/
def mkHttpError (status : ℕ) : String := "OpenSky " ++ toString status

/-- Result of the fetchOpenSkyStates loop: the resolved payload or thrown
error, the bearer token used by each issued states request in order, and
the token cache afterwards. -/
structure FetchResult where
  result : Except String StatesPayload
  tokensUsed : List String
  tokenStateAfter : TokenState

/-- One spin of the fetchOpenSkyStates `for` loop (src/index.js lines
96-132), with `fuel` spins left (the loop runs at most `retries + 1`
iterations). A token failure or a thrown fetch error lands in the catch
block: record lastErr, break when this was the last attempt. A 401 with
attempts left retries without touching lastErr. A non-2xx response throws
and is handled by the same catch. -/
def fetchLoopGo (env : FetchEnv) (haveCreds : Bool) (retries : ℕ) :
    ℕ → ℕ → TokenState → Option String → List String → FetchResult
  | 0, _, st, lastErr, used =>
    { result := .error (lastErr.getD "undefined"), tokensUsed := used, tokenStateAfter := st }
  | fuel + 1, attempt, st, lastErr, used =>
    match getOpenSkyToken st (env.now attempt) haveCreds (env.tokenResp attempt) with
    | .error e =>
      if attempt = retries then
        { result := .error e, tokensUsed := used, tokenStateAfter := st }
      else fetchLoopGo env haveCreds retries fuel (attempt + 1) st (some e) used
    | .ok (tok, st1) =>
      let used1 := used ++ [tok]
      match env.httpResult attempt with
      | .error e =>
        if attempt = retries then
          { result := .error e, tokensUsed := used1, tokenStateAfter := st1 }
        else fetchLoopGo env haveCreds retries fuel (attempt + 1) st1 (some e) used1
      | .ok status =>
        if status = 401 ∧ attempt < retries then
          fetchLoopGo env haveCreds retries fuel (attempt + 1) st1 lastErr used1
        else if 200 ≤ status ∧ status ≤ 299 then
          { result := .ok
              { time := (env.bodyTime attempt).getD ((env.now attempt).fdiv 1000)
                states := env.bodyStates attempt }
            tokensUsed := used1
            tokenStateAfter := st1 }
        else
          if attempt = retries then
            { result := .error (mkHttpError status), tokensUsed := used1, tokenStateAfter := st1 }
          else fetchLoopGo env haveCreds retries fuel (attempt + 1) st1 (some (mkHttpError status)) used1

/-- fetchOpenSkyStates (src/index.js lines 85-134) with its retry budget
made explicit (the route calls it with the default `retries = 1`). -/
def fetchOpenSkyStates (env : FetchEnv) (haveCreds : Bool) (retries : ℕ)
    (st : TokenState) : FetchResult :=
  fetchLoopGo env haveCreds retries (retries + 1) 0 st none []

end OpenSky

/-- Degrees to radians, the `x * (Math.PI / 180)` idiom of the source. -/
noncomputable def deg2rad (x : ℝ) : ℝ := x * (Real.pi / 180)

/-- JS `Math.atan2` (quadrant-correct two-argument arctangent; the
signed-zero corner of the JS semantics is not modelled). The source only
reaches the `0 < x` and `x = 0 ≤ y` branches, since both arguments are
square roots. -/
noncomputable def atan2 (y x : ℝ) : ℝ :=
  if 0 < x then Real.arctan (y / x)
  else if x < 0 then
    (if 0 ≤ y then Real.arctan (y / x) + Real.pi else Real.arctan (y / x) - Real.pi)
  else if 0 < y then Real.pi / 2
  else if y < 0 then -(Real.pi / 2)
  else 0

/-- The `a` intermediate of getHaversineDistance (src/adsbAdapter.js lines
19-24), written with the source's products. -/
noncomputable def haversineA (lat1 lon1 lat2 lon2 : ℝ) : ℝ :=
  let dLat := deg2rad (lat2 - lat1)
  let dLon := deg2rad (lon2 - lon1)
  Real.sin (dLat / 2) * Real.sin (dLat / 2) +
    Real.cos (deg2rad lat1) * Real.cos (deg2rad lat2) *
      Real.sin (dLon / 2) * Real.sin (dLon / 2)

/-- The final `R * c` of getHaversineDistance as a function of `a`. -/
noncomputable def havDistOfA (a : ℝ) : ℝ :=
  6371 * (2 * atan2 (Real.sqrt a) (Real.sqrt (1 - a)))

/-- getHaversineDistance (src/adsbAdapter.js lines 15-27): haversine
great-circle distance in km on a sphere of radius 6371 km. -/
noncomputable def getHaversineDistance (lat1 lon1 lat2 lon2 : ℝ) : ℝ :=
  havDistOfA (haversineA lat1 lon1 lat2 lon2)

/-- The km to nautical-miles constant of src/adsbAdapter.js. -/
def KM_TO_NAUTICAL_MILES : ℝ := 0.539957

/-- Result of bboxToCenterRadius: query center and integral radius in
nautical miles. -/
structure CenterRadius where
  lat : ℝ
  lon : ℝ
  dist : ℤ

/-- bboxToCenterRadius (src/adsbAdapter.js lines 32-45): arithmetic
midpoint center, radius the haversine distance to the north-east corner
converted to nautical miles and rounded up. -/
noncomputable def bboxToCenterRadius (b : Bbox) : CenterRadius :=
  let centerLat := (b.lamin + b.lamax) / 2
  let centerLon := (b.lomin + b.lomax) / 2
  let radiusInKm := getHaversineDistance centerLat centerLon b.lamax b.lomax
  { lat := centerLat, lon := centerLon, dist := ⌈radiusInKm * KM_TO_NAUTICAL_MILES⌉ }

/-- The regional bbox the handler would hand to fetchFlightStates on a
miss, reconstructed from the recorded fetch center. -/
noncomputable def Regional.invokedBbox (r : Regional.HandlerResult) : Bbox :=
  Regional.getRegionalBbox (r.fetchCenter.1 : ℝ) (r.fetchCenter.2 : ℝ)

/-- Concrete fixture: an adsb.fi record with rotorcraft category but
fixed-wing kinematics. -/
def acA5fast : AdsbFi.Ac :=
  { category := some "A5", alt_baro := some (.alt 12000), alt_geom := none
    gs := some 200, track := some 90, lat := some (.num 51), lon := some (.num (-114))
    flight := some "HAWC1", t := some "EC35", hex := "c0ffee", seen_pos := some 1, seen := some 1 }

/-- Concrete fixture: an adsb.fi record with no category and airliner
kinematics. -/
def acPlane : AdsbFi.Ac :=
  { category := none, alt_baro := some (.alt 12000), alt_geom := none
    gs := some 200, track := some 90, lat := some (.num 51), lon := some (.num (-114))
    flight := some "WJA100", t := some "B738", hex := "c0abcd", seen_pos := some 1, seen := some 1 }

/-- Concrete fixture: an adsb.fi record whose latitude is NaN but not null. -/
def acNanLat : AdsbFi.Ac :=
  { category := none, alt_baro := some (.alt 1000), alt_geom := none
    gs := some 50, track := some 90, lat := some .nan, lon := some (.num (-114))
    flight := some "BADPOS", t := none, hex := "c0bad1", seen_pos := some 1, seen := some 1 }

/-- Concrete fixture: an adsb.fi record on the ground. -/
def acGround : AdsbFi.Ac :=
  { category := none, alt_baro := some .ground, alt_geom := none
    gs := some 5, track := some 90, lat := some (.num 51), lon := some (.num (-114))
    flight := some "GRND1", t := none, hex := "c0dead", seen_pos := some 1, seen := some 1 }

/-- Concrete fixture: an OpenSky state vector on the ground with a reported
geometric altitude of 100 m. -/
def sGroundGeo : OpenSky.StateVec :=
  { icao24 := "abc123", callsign := some "LIFE1", time_position := some 100
    last_contact := some 101, longitude := some (.num (-114)), latitude := some (.num 51)
    baro_altitude := some 10, on_ground := true, velocity := some 5
    true_track := some 90, geo_altitude := some 100 }

/-- Concrete fixture: an airborne OpenSky state vector with a finite
position. -/
def sOk : OpenSky.StateVec :=
  { icao24 := "def456", callsign := some "STARS9", time_position := some 100
    last_contact := some 101, longitude := some (.num (-114)), latitude := some (.num 51)
    baro_altitude := some 500, on_ground := false, velocity := some 40
    true_track := some 180, geo_altitude := none }

/-- Concrete fixture: a query with a present but unparseable bbox string. -/
def qBadBbox : Query :=
  { lamin := none, lamax := none, lomin := none, lomax := none, bbox := some "a,b,c,d" }

/-- Concrete fixture: a query with no bounds parameters at all. -/
def qEmpty : Query :=
  { lamin := none, lamax := none, lomin := none, lomax := none, bbox := none }

/-- Concrete fixture: a token cache holding an unexpired token. -/
def stCached : OpenSky.TokenState :=
  { cachedToken := some "tokA", tokenExpiresAt := 1000000000 }

/-- Concrete fixture: an environment whose states endpoint always answers
401 while the token endpoint would mint "tokB". -/
def env401 : OpenSky.FetchEnv :=
  { now := fun _ => 0
    tokenResp := fun _ => .ok { access_token := "tokB", expires_in := some 1800 }
    httpResult := fun _ => .ok 401
    bodyTime := fun _ => none
    bodyStates := fun _ => [] }

/-- Concrete fixture: a token cache for the witness run. -/
def stW : OpenSky.TokenState :=
  { cachedToken := some "tokC", tokenExpiresAt := 500000 }

/-- Concrete fixture: an environment answering 401 on the first states
request and 200 on the retry. -/
def envW : OpenSky.FetchEnv :=
  { now := fun _ => 100
    tokenResp := fun _ => .ok { access_token := "tokD", expires_in := some 1800 }
    httpResult := fun n => if n = 0 then .ok 401 else .ok 200
    bodyTime := fun _ => some 1234
    bodyStates := fun _ => [] }

/-- Concrete fixture: a regional cache holding one entry with a (falsy)
zero timestamp under the key of the (51, 10) center. -/
def cacheZero : ((Bool × ℕ) × (Bool × ℕ)) → Option Regional.Entry :=
  fun k => if k = Regional.regionalKey ((51 + 51) / 2) ((10 + 10) / 2) then
    some { timestamp := 0, flights := [] } else none

/-- Concrete fixture: a regional cache holding one fresh-or-stale entry
stored at 5000 ms under the key of the (51, 10) center. -/
def cacheAt5000 : ((Bool × ℕ) × (Bool × ℕ)) → Option Regional.Entry :=
  fun k => if k = Regional.regionalKey ((51 + 51) / 2) ((10 + 10) / 2) then
    some { timestamp := 5000, flights := [] } else none



/-- C2 counterexample: in the regional-cache revision of /api/heli/live
(src/unnamed/part_000, first file), a failed upstream fetch is answered
with HTTP 500 and error string "internal_server_error", not with the
claimed 502 "upstream_failure". -/
theorem C2_counterexample :
    heliLiveRespondRegional (Except.error "fetch failed" : Except String Unit) =
      HandlerOut.failure
        { status := 500, ok := false, error := "internal_server_error", detail := "fetch failed" } ∧
    (500 : ℕ) ≠ 502 ∧ "internal_server_error" ≠ "upstream_failure" :=
  ⟨rfl, by decide, by decide⟩

/-- C2 (amended): when the upstream fetch fails after the retry budget, the
src/index.js and adapter revisions of /api/heli/live answer
502 {ok: false, error: "upstream_failure", detail}, but the regional-cache
revision answers 500 {ok: false, error: "internal_server_error", detail};
in each revision no other status or error string is used for an upstream
failure. -/
theorem C2_amended_statuses {P : Type} :
    ∀ msg : String,
      heliLiveRespondOpenSky (Except.error msg : Except String P) =
        HandlerOut.failure
          { status := 502, ok := false, error := "upstream_failure", detail := msg } ∧
      heliLiveRespondAdapter (Except.error msg : Except String P) =
        HandlerOut.failure
          { status := 502, ok := false, error := "upstream_failure", detail := msg } ∧
      heliLiveRespondRegional (Except.error msg : Except String P) =
        HandlerOut.failure
          { status := 500, ok := false, error := "internal_server_error", detail := msg } :=
  fun _ => ⟨rfl, rfl, rfl⟩

/-- C4: the adsb.fi classifier answers true for any record with category
"A5" regardless of kinematics; a record without that category evidence
whose known altitude is at least 9000 ft or whose known ground speed is at
least 160 kt classifies false, in both the adsb.fi classifier and the
OpenSky-revision classifier (which reads the normalized record and has no
category tier). -/
theorem C4_classifier_tiers :
    (∀ ac : AdsbFi.Ac, ac.category = some "A5" → AdsbFi.likelyHeli ac = true) ∧
    (∀ ac : AdsbFi.Ac, ac.category ≠ some "A5" →
      ((∃ x, jsCoalesce ac.alt_baro ac.alt_geom = some (AdsbFi.AltValue.alt x) ∧ 9000 ≤ x) ∨
        (∃ v, ac.gs = some v ∧ 160 ≤ v)) →
      AdsbFi.likelyHeli ac = false) ∧
    (∀ f : OpenSky.Flight,
      ((∃ a, f.altitude = some a ∧ 9000 ≤ a) ∨ (∃ v, f.speed = some v ∧ 160 ≤ v)) →
      OpenSky.likelyHeli f = false) := by
  refine ⟨?_, ?_, ?_⟩
  · intro ac h
    unfold AdsbFi.likelyHeli
    rw [if_pos h]
  · intro ac hcat hev
    unfold AdsbFi.likelyHeli
    rw [if_neg hcat]
    rcases hev with ⟨x, hx, hge⟩ | ⟨v, hv, hge⟩
    · simp only [hx, Bool.and_eq_false_iff]
      left
      simpa using not_lt.mpr hge
    · simp only [hv, Bool.and_eq_false_iff]
      right
      simpa using not_lt.mpr hge
  · intro f hev
    unfold OpenSky.likelyHeli
    rcases hev with ⟨a, ha, hge⟩ | ⟨v, hv, hge⟩
    · simp only [ha, Bool.and_eq_false_iff]
      left
      simpa using not_lt.mpr hge
    · simp only [hv, Bool.and_eq_false_iff]
      right
      simpa using not_lt.mpr hge

/-- C4 witness: the theorem applied to a category-A5 record with airliner
kinematics and to a category-free record with airliner kinematics. -/
theorem C4_witness :
    AdsbFi.likelyHeli acA5fast = true ∧ AdsbFi.likelyHeli acPlane = false :=
  ⟨C4_classifier_tiers.1 acA5fast rfl,
    C4_classifier_tiers.2.1 acPlane (by decide)
      (Or.inl ⟨12000, rfl, by norm_num⟩)⟩

/-- C7 counterexample: the OpenSky normalizer toFlight maps an on-ground
state with a 100 m geometric altitude to status "landed" but altitude
328 ft, not the claimed 0. -/
theorem C7_counterexample :
    sGroundGeo.on_ground = true ∧
    (OpenSky.toFlight sGroundGeo).status = "landed" ∧
    (OpenSky.toFlight sGroundGeo).altitude = some 328 ∧
    some (328 : ℤ) ≠ some (0 : ℤ) := by
  refine ⟨rfl, rfl, ?_, by decide⟩
  norm_num [OpenSky.toFlight, OpenSky.m2ft, jsRound, jsCoalesce, sGroundGeo]

/-- C7 (amended): the adsb.fi normalizer behaves as claimed (a "ground"
altitude sentinel forces altitude 0 and status "landed"; otherwise altitude
is the rounded barometric value, barometric falling back to geometric, and
status is "active"). The OpenSky normalizer toFlight sets only the status
from the on-ground flag: altitude is never forced to 0 and is converted
from the geometric altitude when present, the barometric value being the
fallback (the reverse preference). -/
theorem C7_amended_normalizers :
    (∀ ac : AdsbFi.Ac, jsCoalesce ac.alt_baro ac.alt_geom = some AdsbFi.AltValue.ground →
      (AdsbFi.mapAdsbFiToFlight ac).altitude = JsNum.num 0 ∧
      (AdsbFi.mapAdsbFiToFlight ac).status = "landed") ∧
    (∀ ac : AdsbFi.Ac, ∀ x : ℚ,
      jsCoalesce ac.alt_baro ac.alt_geom = some (AdsbFi.AltValue.alt x) →
      (AdsbFi.mapAdsbFiToFlight ac).altitude = JsNum.num (jsRound x) ∧
      (AdsbFi.mapAdsbFiToFlight ac).status = "active") ∧
    (∀ s : OpenSky.StateVec,
      (OpenSky.toFlight s).status = (if s.on_ground then "landed" else "active") ∧
      (OpenSky.toFlight s).altitude = OpenSky.m2ft (jsCoalesce s.geo_altitude s.baro_altitude)) ∧
    (∀ (s : OpenSky.StateVec) (x : ℚ), s.geo_altitude = some x →
      (OpenSky.toFlight s).altitude = some (jsRound (x * 3.28084))) := by
  refine ⟨?_, ?_, ?_, ?_⟩
  · intro ac h
    unfold AdsbFi.mapAdsbFiToFlight
    rw [h]
    exact ⟨rfl, rfl⟩
  · intro ac x h
    unfold AdsbFi.mapAdsbFiToFlight
    rw [h]
    refine ⟨rfl, ?_⟩
    simp
  · intro s
    exact ⟨rfl, rfl⟩
  · intro s x h
    show OpenSky.m2ft (jsCoalesce s.geo_altitude s.baro_altitude) = some (jsRound (x * 3.28084))
    rw [h]
    rfl

/-- C7 witness: the theorem applied to an adsb.fi record on the ground. -/
theorem C7_witness :
    (AdsbFi.mapAdsbFiToFlight acGround).altitude = JsNum.num 0 :=
  (C7_amended_normalizers.1 acGround rfl).1

/-- C5 counterexample: an adsb.fi record with a NaN latitude but non-null
coordinates survives the fetchFlightStates position filter and appears in
the flight list handed to the client, so non-finite positions are not
excluded in the adapter revisions. -/
theorem C5_counterexample :
    ((AdsbFi.fetchFlightStatesFlights [acNanLat]).map (fun f => f.1.latitude)) =
      [some JsNum.nan] ∧
    jsFiniteOpt (some JsNum.nan) = false :=
  ⟨by decide, rfl⟩

/-- C5 (amended): the src/index.js OpenSky revision of /api/heli/live keeps
only records whose latitude and longitude are finite numbers; the adsb.fi
adapter keeps every record whose latitude and longitude are merely non-null,
so there a surviving record is only guaranteed a present (possibly
non-finite) position. -/
theorem C5_amended_filters :
    (∀ (states : List OpenSky.StateVec) (f : OpenSky.Flight × Bool),
      f ∈ OpenSky.heliLiveFlights states →
      jsFiniteOpt f.1.latitude = true ∧ jsFiniteOpt f.1.longitude = true) ∧
    (∀ (aircraft : List AdsbFi.Ac) (f : AdsbFi.Flight × Bool),
      f ∈ AdsbFi.fetchFlightStatesFlights aircraft →
      f.1.latitude.isSome = true ∧ f.1.longitude.isSome = true) := by
  constructor
  · intro states f hf
    unfold OpenSky.heliLiveFlights at hf
    rcases List.mem_map.mp hf with ⟨g, hg, rfl⟩
    rcases List.mem_filter.mp hg with ⟨-, hcond⟩
    exact ⟨(Bool.and_eq_true _ _ |>.mp hcond).1, (Bool.and_eq_true _ _ |>.mp hcond).2⟩
  · intro aircraft f hf
    unfold AdsbFi.fetchFlightStatesFlights at hf
    rcases List.mem_map.mp hf with ⟨ac, hac, rfl⟩
    rcases List.mem_filter.mp hac with ⟨-, hcond⟩
    exact ⟨(Bool.and_eq_true _ _ |>.mp hcond).1, (Bool.and_eq_true _ _ |>.mp hcond).2⟩

/-- C5 witness: the theorem applied to the singleton state list of a state
with a finite position. -/
theorem C5_witness :
    jsFiniteOpt (OpenSky.toFlight sOk, OpenSky.likelyHeli (OpenSky.toFlight sOk)).1.latitude = true := by
  have h : OpenSky.heliLiveFlights [sOk] =
      [(OpenSky.toFlight sOk, OpenSky.likelyHeli (OpenSky.toFlight sOk))] := by
    simp [OpenSky.heliLiveFlights, OpenSky.toFlight, sOk, jsFiniteOpt, JsNum.isFinite]
  exact (C5_amended_filters.1 [sOk] _ (by rw [h]; exact List.mem_singleton.mpr rfl)).1

/-- Helper: the rendered toFixed(1) strings of two numbers agree as soon as
their rounded numeric values agree and their signs agree. -/
theorem toFixed1_congr (x x' : ℚ)
    (hv : Regional.toFixed1Value x = Regional.toFixed1Value x')
    (hs : (x < 0) ↔ (x' < 0)) : Regional.toFixed1 x = Regional.toFixed1 x' := by
  unfold Regional.toFixed1Value at hv
  by_cases h : x < 0
  · have h' : x' < 0 := hs.mp h
    have e1 : (Regional.toFixed1 x).1 = true := by unfold Regional.toFixed1; rw [if_pos h]
    have e1' : (Regional.toFixed1 x').1 = true := by unfold Regional.toFixed1; rw [if_pos h']
    rw [e1, e1'] at hv
    simp only [if_pos] at hv
    have h2 : (Regional.toFixed1 x).2 = (Regional.toFixed1 x').2 := by
      field_simp at hv
      exact_mod_cast hv
    exact Prod.ext (by rw [e1, e1']) h2
  · have h' : ¬ x' < 0 := fun hh => h (hs.mpr hh)
    have e1 : (Regional.toFixed1 x).1 = false := by unfold Regional.toFixed1; rw [if_neg h]
    have e1' : (Regional.toFixed1 x').1 = false := by unfold Regional.toFixed1; rw [if_neg h']
    rw [e1, e1'] at hv
    simp only [Bool.false_eq_true, if_neg] at hv
    have h2 : (Regional.toFixed1 x).2 = (Regional.toFixed1 x').2 := by
      field_simp at hv
      exact_mod_cast hv
    exact Prod.ext (by rw [e1, e1']) h2

/-- C6 counterexample: the boxes (south, north) = (-0.1, 0.02) and
(0, 0.08) over the same west/east have centers -0.04 and 0.04, both of
which round to the numeric value 0.0 at one-decimal precision, yet their
regional keys differ, because toFixed(1) renders the first center as
"-0.0" and the second as "0.0". -/
theorem C6_counterexample :
    Regional.toFixed1Value (((-1 : ℚ) / 10 + 2 / 100) / 2) =
      Regional.toFixed1Value (((0 : ℚ) + 8 / 100) / 2) ∧
    Regional.regionalKey (((-1 : ℚ) / 10 + 2 / 100) / 2) ((10 + 10) / 2) ≠
      Regional.regionalKey (((0 : ℚ) + 8 / 100) / 2) ((10 + 10) / 2) := by
  constructor
  · norm_num [Regional.toFixed1Value, Regional.toFixed1]
  · norm_num [Regional.regionalKey, Regional.toFixed1]

/-- C6 (amended): two centers produce the same regional key as soon as they
round to the same value at one-decimal precision AND agree in sign
(both negative or both nonnegative, in each coordinate); the sign proviso
is needed because toFixed(1) renders a negative center rounding to zero as
"-0.0", distinct from "0.0". -/
theorem C6_amended_keys :
    ∀ cLat cLon cLat' cLon' : ℚ,
      Regional.toFixed1Value cLat = Regional.toFixed1Value cLat' →
      ((cLat < 0) ↔ (cLat' < 0)) →
      Regional.toFixed1Value cLon = Regional.toFixed1Value cLon' →
      ((cLon < 0) ↔ (cLon' < 0)) →
      Regional.regionalKey cLat cLon = Regional.regionalKey cLat' cLon' := by
  intro cLat cLon cLat' cLon' hv1 hs1 hv2 hs2
  unfold Regional.regionalKey
  rw [toFixed1_congr cLat cLat' hv1 hs1, toFixed1_congr cLon cLon' hv2 hs2]

/-- C6 witness: the theorem applied to the centers 50.04 and 50.01 (both
rounding to 50.0) over the common longitude center -114. -/
theorem C6_witness :
    Regional.regionalKey (5004 / 100) (-114) = Regional.regionalKey (5001 / 100) (-114) :=
  C6_amended_keys (5004 / 100) (-114) (5001 / 100) (-114)
    (by norm_num [Regional.toFixed1Value, Regional.toFixed1]) (by norm_num)
    rfl Iff.rfl

/-- C3: in the regional-cache revision, a request whose region key holds an
entry younger than the 30 s TTL is served that entry's records unchanged
with no adapter invocation and no cache mutation; otherwise the adapter is
invoked for the 50 km regional cell around the request center (not the
exact requested box) and the entry for that key is overwritten whole with
the fetched records at the current time. The /api/adsb route of
src/index.js behaves the same way with its 5 s TTL and whole-payload
entries. -/
theorem C3_cache_freshness :
    (∀ cache now south north west east fetched (e : Regional.Entry),
      cache (Regional.regionalKey ((south + north) / 2) ((west + east) / 2)) = some e →
      now - e.timestamp < Regional.CACHE_TTL_MS →
      (Regional.heliLive cache now south north west east fetched).invoked = false ∧
      (Regional.heliLive cache now south north west east fetched).regionalFlights = e.flights ∧
      (Regional.heliLive cache now south north west east fetched).cacheAfter = cache) ∧
    (∀ cache now south north west east fetched,
      (∀ e : Regional.Entry,
        cache (Regional.regionalKey ((south + north) / 2) ((west + east) / 2)) = some e →
        Regional.CACHE_TTL_MS ≤ now - e.timestamp) →
      (Regional.heliLive cache now south north west east fetched).invoked = true ∧
      (Regional.heliLive cache now south north west east fetched).regionalFlights = fetched ∧
      (Regional.heliLive cache now south north west east fetched).fetchCenter =
        ((south + north) / 2, (west + east) / 2) ∧
      Regional.invokedBbox (Regional.heliLive cache now south north west east fetched) =
        Regional.getRegionalBbox (((south + north) / 2 : ℚ) : ℝ) (((west + east) / 2 : ℚ) : ℝ) ∧
      (Regional.heliLive cache now south north west east fetched).cacheAfter
          (Regional.regionalKey ((south + north) / 2) ((west + east) / 2)) =
        some { timestamp := now, flights := fetched } ∧
      (∀ k, k ≠ Regional.regionalKey ((south + north) / 2) ((west + east) / 2) →
        (Regional.heliLive cache now south north west east fetched).cacheAfter k = cache k)) ∧
    (∀ {K P : Type} [DecidableEq K] (cache : K → Option (AdsbRoute.Entry P)) (now : ℕ)
        (key : K) (p : P) (c : AdsbRoute.Entry P),
      cache key = some c → now - c.at_ < AdsbRoute.CACHE_MS →
      AdsbRoute.route cache now key p = (false, c.payload, cache)) ∧
    (∀ {K P : Type} [DecidableEq K] (cache : K → Option (AdsbRoute.Entry P)) (now : ℕ)
        (key : K) (p : P),
      (∀ c : AdsbRoute.Entry P, cache key = some c → AdsbRoute.CACHE_MS ≤ now - c.at_) →
      (AdsbRoute.route cache now key p).1 = true ∧
      (AdsbRoute.route cache now key p).2.1 = p ∧
      (AdsbRoute.route cache now key p).2.2 key = some { at_ := now, payload := p }) := by
  refine ⟨?_, ?_, ?_, ?_⟩
  · intro cache now south north west east fetched e hc hfresh
    unfold Regional.heliLive
    simp [hc, hfresh]
  · intro cache now south north west east fetched h
    rcases hc : cache (Regional.regionalKey ((south + north) / 2) ((west + east) / 2)) with - | e
    · refine ⟨?_, ?_, ?_, ?_, ?_, ?_⟩
      · unfold Regional.heliLive
        simp [hc]
      · unfold Regional.heliLive
        simp [hc]
      · unfold Regional.heliLive
        simp [hc]
      · unfold Regional.heliLive Regional.invokedBbox
        simp [hc]
      · unfold Regional.heliLive
        simp [hc]
      · intro k hk
        unfold Regional.heliLive
        simp [hc, hk]
    · have hstale : ¬ (now - e.timestamp < Regional.CACHE_TTL_MS) := not_lt.mpr (h e hc)
      refine ⟨?_, ?_, ?_, ?_, ?_, ?_⟩
      · unfold Regional.heliLive
        simp [hc, hstale]
      · unfold Regional.heliLive
        simp [hc, hstale]
      · unfold Regional.heliLive
        simp [hc, hstale]
      · unfold Regional.heliLive Regional.invokedBbox
        simp [hc, hstale]
      · unfold Regional.heliLive
        simp [hc, hstale]
      · intro k hk
        unfold Regional.heliLive
        simp [hc, hstale, hk]
  · intro K P _ cache now key p c hc hfresh
    unfold AdsbRoute.route
    simp [hc, hfresh]
  · intro K P _ cache now key p h
    rcases hc : cache key with - | c
    · unfold AdsbRoute.route
      simp [hc]
    · have hstale : ¬ (now - c.at_ < AdsbRoute.CACHE_MS) := not_lt.mpr (h c hc)
      unfold AdsbRoute.route
      simp [hc, hstale]

/-- C3 witness: the theorem's fresh-hit case applied to a cache holding an
entry stored at 5000 ms, read at 10000 ms (age 5000 ms, below the 30 s
TTL). -/
theorem C3_witness :
    (Regional.heliLive cacheAt5000 10000 51 51 10 10 []).invoked = false ∧
    (Regional.heliLive cacheAt5000 10000 51 51 10 10 []).regionalFlights = [] := by
  have h := C3_cache_freshness.1 cacheAt5000 10000 51 51 10 10 []
    { timestamp := 5000, flights := [] } (by norm_num [cacheAt5000])
    (by norm_num [Regional.CACHE_TTL_MS])
  exact ⟨h.1, h.2.1⟩

/-- C10 counterexample: a stored entry with (falsy) timestamp 0, stale at
now = 30000 ms, is refreshed, but the response's time field is 30 (the
current fetch time in seconds), not the old entry's floored timestamp 0 —
so a prior entry exists whose stale refresh reports the fresh fetch time. -/
theorem C10_counterexample :
    cacheZero (Regional.regionalKey ((51 + 51 : ℚ) / 2) ((10 + 10 : ℚ) / 2)) =
      some { timestamp := 0, flights := [] } ∧
    Regional.CACHE_TTL_MS ≤ 30000 - 0 ∧
    (Regional.heliLive cacheZero 30000 51 51 10 10 []).time = 30 ∧
    (30 : ℕ) ≠ 0 / 1000 := by
  refine ⟨by norm_num [cacheZero], by norm_num [Regional.CACHE_TTL_MS], ?_, by norm_num⟩
  norm_num [Regional.heliLive, cacheZero, Regional.CACHE_TTL_MS]

/-- C10 (amended): on a stale hit the regional handler fetches and
overwrites the entry, and the response time is the old entry's timestamp
floored to seconds provided that timestamp is nonzero; a zero timestamp is
falsy in `cached?.timestamp || now` and falls back to the fresh fetch
time. When no prior entry exists, the time is the fresh fetch time. -/
theorem C10_amended_staleTime :
    (∀ cache now south north west east fetched (e : Regional.Entry),
      cache (Regional.regionalKey ((south + north) / 2) ((west + east) / 2)) = some e →
      Regional.CACHE_TTL_MS ≤ now - e.timestamp →
      (Regional.heliLive cache now south north west east fetched).invoked = true ∧
      (Regional.heliLive cache now south north west east fetched).cacheAfter
          (Regional.regionalKey ((south + north) / 2) ((west + east) / 2)) =
        some { timestamp := now, flights := fetched } ∧
      (e.timestamp ≠ 0 →
        (Regional.heliLive cache now south north west east fetched).time = e.timestamp / 1000) ∧
      (e.timestamp = 0 →
        (Regional.heliLive cache now south north west east fetched).time = now / 1000)) ∧
    (∀ cache now south north west east fetched,
      cache (Regional.regionalKey ((south + north) / 2) ((west + east) / 2)) = none →
      (Regional.heliLive cache now south north west east fetched).time = now / 1000) := by
  constructor
  · intro cache now south north west east fetched e hc hstale
    have hnf : ¬ (now - e.timestamp < Regional.CACHE_TTL_MS) := not_lt.mpr hstale
    refine ⟨?_, ?_, ?_, ?_⟩
    · unfold Regional.heliLive
      simp [hc, hnf]
    · unfold Regional.heliLive
      simp [hc, hnf]
    · intro hne
      unfold Regional.heliLive
      simp [hc, hne]
    · intro hz
      unfold Regional.heliLive
      simp [hc, hz]
  · intro cache now south north west east fetched hc
    unfold Regional.heliLive
    simp [hc]

/-- C10 witness: the theorem applied to a stale entry stored at 5000 ms and
read at 40000 ms: the reported time is 5 s, not 40 s. -/
theorem C10_witness :
    (Regional.heliLive cacheAt5000 40000 51 51 10 10 []).time = 5 := by
  have h := (C10_amended_staleTime.1 cacheAt5000 40000 51 51 10 10 []
    { timestamp := 5000, flights := [] } (by norm_num [cacheAt5000])
    (by norm_num [Regional.CACHE_TTL_MS])).2.2.1 (by norm_num)
  simpa using h

/-- C9 counterexample: the query with no lamin/lamax/lomin/lomax and
bbox="a,b,c,d" parses to four NaN Number conversions in both shapes, yet
parseBoundsFromQuery returns the NaN bounds of the malformed bbox string,
not the configured default bounding box. -/
theorem C9_counterexample :
    ((splitCommaChars "a,b,c,d".toList).map jsNumberChars) =
      [JsNum.nan, JsNum.nan, JsNum.nan, JsNum.nan] ∧
    (parseBoundsFromQuery qBadBbox).lamin = some JsNum.nan ∧
    defaultBounds.lamin = some (JsNum.num (507 / 10)) ∧
    parseBoundsFromQuery qBadBbox ≠ defaultBounds := by
  refine ⟨by decide, by decide, rfl, by decide⟩

/-- C9 (amended): when the lamin/lamax/lomin/lomax shape does not parse to
four finite numbers, the configured default bounding box is substituted
only if the bbox parameter is absent or empty (falsy); a present,
non-empty bbox string is split and Number-converted as-is, with no
finiteness check, so a malformed bbox yields NaN bounds rather than the
default. In both cases parseBoundsFromQuery returns bounds (it is total)
and no error is surfaced. -/
theorem C9_amended_fallback :
    (∀ q : Query,
      ((jsParseFloatOpt q.lamin).isFinite && (jsParseFloatOpt q.lamax).isFinite &&
        (jsParseFloatOpt q.lomin).isFinite && (jsParseFloatOpt q.lomax).isFinite) = false →
      (q.bbox = none ∨ q.bbox = some "") →
      parseBoundsFromQuery q = defaultBounds) ∧
    (∀ (q : Query) (s : String),
      ((jsParseFloatOpt q.lamin).isFinite && (jsParseFloatOpt q.lamax).isFinite &&
        (jsParseFloatOpt q.lomin).isFinite && (jsParseFloatOpt q.lomax).isFinite) = false →
      q.bbox = some s → s ≠ "" →
      parseBoundsFromQuery q =
        { lamin := ((splitCommaChars s.toList).map jsNumberChars).get? 0
          lamax := ((splitCommaChars s.toList).map jsNumberChars).get? 1
          lomin := ((splitCommaChars s.toList).map jsNumberChars).get? 2
          lomax := ((splitCommaChars s.toList).map jsNumberChars).get? 3 }) := by
  constructor
  · intro q hfin hb
    unfold parseBoundsFromQuery
    rw [if_neg (by simp [hfin])]
    have hgoal : (let bboxStr : String := DEFAULT_BBOX_STR
        let parts := (splitCommaChars bboxStr.toList).map jsNumberChars
        (⟨parts.get? 0, parts.get? 1, parts.get? 2, parts.get? 3⟩ : Bounds)) = defaultBounds := by
      show (⟨some (JsNum.num ((intVal [5, 0] : ℚ) + fracVal [7])),
            some (JsNum.num ((intVal [5, 1] : ℚ) + fracVal [3])),
            some (JsNum.num (-((intVal [1, 1, 4] : ℚ) + fracVal [4]))),
            some (JsNum.num (-((intVal [1, 1, 3] : ℚ) + fracVal [7])))⟩ : Bounds) = defaultBounds
      simp only [defaultBounds, Bounds.mk.injEq, Option.some.injEq, JsNum.num.injEq]
      norm_num [intVal, fracVal, List.foldl, List.foldr]
    rcases hb with hb | hb <;> rw [hb] <;> exact hgoal
  · intro q s hfin hb hs
    unfold parseBoundsFromQuery
    rw [if_neg (by simp [hfin])]
    rw [hb]
    show (let bboxStr := if s = "" then DEFAULT_BBOX_STR else s
          let parts := (splitCommaChars bboxStr.toList).map jsNumberChars
          (⟨parts.get? 0, parts.get? 1, parts.get? 2, parts.get? 3⟩ : Bounds)) = _
    rw [if_neg hs]

/-- C9 witness: the theorem applied to the empty query, which is processed
with the default bounding box. -/
theorem C9_witness : parseBoundsFromQuery qEmpty = defaultBounds :=
  C9_amended_fallback.1 qEmpty (by decide) (Or.inl rfl)

/-- C8 counterexample: with a cached, locally-unexpired token "tokA" and an
upstream that answers 401, fetchOpenSkyStates retries once but the retry
reuses the cached token: both issued requests carry "tokA", and the token
a refresh would have minted ("tokB") is never used, refuting the claimed
forced refresh. -/
theorem C8_counterexample :
    (OpenSky.fetchOpenSkyStates env401 true 1 stCached).tokensUsed = ["tokA", "tokA"] ∧
    stCached.cachedToken = some "tokA" ∧
    (env401.tokenResp 0 = Except.ok { access_token := "tokB", expires_in := some 1800 }) := by
  refine ⟨by decide, rfl, rfl⟩

/-- C8 (amended): a 401 on the first attempt is retried exactly once (with
the default retry budget of 1), but the retry merely re-invokes
getOpenSkyToken, which returns the cached token unchanged whenever the
current time is more than 60 s before its recorded expiry: there is no
forced refresh, and such a retry reuses the previously cached token. -/
theorem C8_amended_retry :
    ∀ (env : OpenSky.FetchEnv) (creds : Bool) (st : OpenSky.TokenState) (tok : String),
      st.cachedToken = some tok → tok ≠ "" →
      env.now 0 < st.tokenExpiresAt - 60000 →
      env.now 1 < st.tokenExpiresAt - 60000 →
      env.httpResult 0 = Except.ok 401 →
      (OpenSky.fetchOpenSkyStates env creds 1 st).tokensUsed = [tok, tok] := by
  intro env creds st tok hst htok h0 h1 hr
  have hg0 : OpenSky.getOpenSkyToken st (env.now 0) creds (env.tokenResp 0) =
      Except.ok (tok, st) := by
    unfold OpenSky.getOpenSkyToken
    rw [hst]
    exact if_pos ⟨htok, h0⟩
  have hg1 : OpenSky.getOpenSkyToken st (env.now 1) creds (env.tokenResp 1) =
      Except.ok (tok, st) := by
    unfold OpenSky.getOpenSkyToken
    rw [hst]
    exact if_pos ⟨htok, h1⟩
  have step0 : OpenSky.fetchLoopGo env creds 1 2 0 st none [] =
      OpenSky.fetchLoopGo env creds 1 1 1 st none [tok] := by
    rw [show (2 : ℕ) = 1 + 1 from rfl]
    rw [OpenSky.fetchLoopGo]
    rw [hg0, hr]
    norm_num
  show (OpenSky.fetchLoopGo env creds 1 2 0 st none []).tokensUsed = [tok, tok]
  rw [step0]
  show (OpenSky.fetchLoopGo env creds 1 (0 + 1) 1 st none [tok]).tokensUsed = [tok, tok]
  rw [OpenSky.fetchLoopGo]
  rw [hg1]
  rcases h2 : env.httpResult 1 with msg | status
  · simp
  · by_cases hok : 200 ≤ status ∧ status ≤ 299
    · simp [hok]
    · simp [hok]

/-- C8 witness: the theorem applied to a cached unexpired token "tokC" with
a 401 first answer: both requests carry "tokC". -/
theorem C8_witness :
    (OpenSky.fetchOpenSkyStates envW true 1 stW).tokensUsed = ["tokC", "tokC"] :=
  C8_amended_retry envW true stW "tokC" rfl (by decide) (by decide) (by decide) rfl

/-- Helper: the atan2 of two square roots never exceeds a right angle. -/
theorem atan2_sqrt_le (a : ℝ) :
    atan2 (Real.sqrt a) (Real.sqrt (1 - a)) ≤ Real.pi / 2 := by
  rcases (Real.sqrt_nonneg (1 - a)).lt_or_eq with hx | hx
  · unfold atan2
    rw [if_pos hx]
    exact (Real.arctan_lt_pi_div_two _).le
  · unfold atan2
    rw [← hx]
    rw [if_neg (lt_irrefl (0 : ℝ))]
    rw [if_neg (lt_irrefl (0 : ℝ))]
    rcases (Real.sqrt_nonneg a).lt_or_eq with hy | hy
    · rw [if_pos hy]
    · rw [← hy]
      rw [if_neg (lt_irrefl (0 : ℝ))]
      rw [if_neg (lt_irrefl (0 : ℝ))]
      positivity

/-- Helper: the haversine central angle is monotone in the `a` term below
1 (the square root truncates negative arguments, so no lower bound on `a`
is needed). -/
theorem atan2_sqrt_mono (a a' : ℝ) (hle : a ≤ a') (h1 : a' ≤ 1) :
    atan2 (Real.sqrt a) (Real.sqrt (1 - a)) ≤
      atan2 (Real.sqrt a') (Real.sqrt (1 - a')) := by
  rcases eq_or_lt_of_le h1 with h1e | h1l
  · rw [h1e]
    have hval : atan2 (Real.sqrt 1) (Real.sqrt (1 - 1)) = Real.pi / 2 := by
      rw [show (1 : ℝ) - 1 = 0 by ring, Real.sqrt_zero, Real.sqrt_one]
      unfold atan2
      rw [if_neg (lt_irrefl (0 : ℝ))]
      rw [if_neg (lt_irrefl (0 : ℝ))]
      rw [if_pos (by norm_num : (0 : ℝ) < 1)]
    rw [hval]
    exact atan2_sqrt_le a
  · have hx' : 0 < Real.sqrt (1 - a') := Real.sqrt_pos.mpr (by linarith)
    have hx : 0 < Real.sqrt (1 - a) := Real.sqrt_pos.mpr (by linarith)
    unfold atan2
    rw [if_pos hx, if_pos hx']
    apply Real.arctan_strictMono.monotone
    exact div_le_div₀ (Real.sqrt_nonneg a') (Real.sqrt_le_sqrt hle) hx'
      (Real.sqrt_le_sqrt (by linarith))

/-- Helper: the haversine distance is monotone in the `a` term below 1. -/
theorem havDistOfA_mono (a a' : ℝ) (hle : a ≤ a') (h1 : a' ≤ 1) :
    havDistOfA a ≤ havDistOfA a' := by
  unfold havDistOfA
  have h := atan2_sqrt_mono a a' hle h1
  linarith

/-- Helper: the `a` term never exceeds 1 when both latitude cosines are
nonnegative (i.e. when the latitudes are physical). -/
theorem haversineA_le_one (lat1 lon1 lat2 lon2 : ℝ)
    (h1 : 0 ≤ Real.cos (deg2rad lat1)) (h2 : 0 ≤ Real.cos (deg2rad lat2)) :
    haversineA lat1 lon1 lat2 lon2 ≤ 1 := by
  unfold haversineA
  have hd : deg2rad (lat2 - lat1) = deg2rad lat2 - deg2rad lat1 := by
    unfold deg2rad
    ring
  rw [hd]
  have hs : Real.sin ((deg2rad lat2 - deg2rad lat1) / 2) *
      Real.sin ((deg2rad lat2 - deg2rad lat1) / 2) =
      1 / 2 - Real.cos (deg2rad lat2 - deg2rad lat1) / 2 := by
    have h := Real.sin_sq_eq_half_sub ((deg2rad lat2 - deg2rad lat1) / 2)
    have h2x : 2 * ((deg2rad lat2 - deg2rad lat1) / 2) = deg2rad lat2 - deg2rad lat1 := by ring
    rw [h2x] at h
    nlinarith [h]
  have hcsub := Real.cos_sub (deg2rad lat2) (deg2rad lat1)
  have hcadd := Real.cos_add (deg2rad lat1) (deg2rad lat2)
  have hc1 : Real.cos (deg2rad lat1 + deg2rad lat2) ≤ 1 := Real.cos_le_one _
  have hst : Real.sin (deg2rad (lon2 - lon1) / 2) * Real.sin (deg2rad (lon2 - lon1) / 2) ≤ 1 := by
    nlinarith [Real.sin_sq_le_one (deg2rad (lon2 - lon1) / 2)]
  have hstn := mul_self_nonneg (Real.sin (deg2rad (lon2 - lon1) / 2))
  nlinarith [hs, hcsub, hcadd, hc1,
    mul_le_of_le_one_right (mul_nonneg h1 h2) hst,
    mul_nonneg (mul_nonneg h1 h2) hstn]

/-- Helper: the haversineA value of the north-east corner of bbox
(0, 90, 0, 180) as seen from the center (45, 90). -/
theorem haversineA_ne_b0 :
    haversineA 45 90 90 180 = Real.sin (Real.pi / 8) * Real.sin (Real.pi / 8) := by
  unfold haversineA deg2rad
  show Real.sin ((90 - 45) * (Real.pi / 180) / 2) * Real.sin ((90 - 45) * (Real.pi / 180) / 2) +
      Real.cos (45 * (Real.pi / 180)) * Real.cos (90 * (Real.pi / 180)) *
        Real.sin ((180 - 90) * (Real.pi / 180) / 2) *
        Real.sin ((180 - 90) * (Real.pi / 180) / 2) =
    Real.sin (Real.pi / 8) * Real.sin (Real.pi / 8)
  rw [show ((90 : ℝ) - 45) * (Real.pi / 180) / 2 = Real.pi / 8 by ring]
  rw [show ((90 : ℝ)) * (Real.pi / 180) = Real.pi / 2 by ring]
  rw [Real.cos_pi_div_two]
  ring

/-- Helper: the haversineA value of the south-east corner of bbox
(0, 90, 0, 180) as seen from the center (45, 90). -/
theorem haversineA_se_b0 : haversineA 45 90 0 180 = 1 / 2 := by
  unfold haversineA deg2rad
  show Real.sin ((0 - 45) * (Real.pi / 180) / 2) * Real.sin ((0 - 45) * (Real.pi / 180) / 2) +
      Real.cos (45 * (Real.pi / 180)) * Real.cos (0 * (Real.pi / 180)) *
        Real.sin ((180 - 90) * (Real.pi / 180) / 2) *
        Real.sin ((180 - 90) * (Real.pi / 180) / 2) =
    1 / 2
  rw [show ((0 : ℝ) - 45) * (Real.pi / 180) / 2 = -(Real.pi / 8) by ring]
  rw [show ((45 : ℝ)) * (Real.pi / 180) = Real.pi / 4 by ring]
  rw [show ((0 : ℝ)) * (Real.pi / 180) = 0 by ring]
  rw [show ((180 : ℝ) - 90) * (Real.pi / 180) / 2 = Real.pi / 4 by ring]
  rw [Real.sin_neg, Real.cos_zero, Real.cos_pi_div_four, Real.sin_pi_div_four]
  have h2sq : Real.sqrt 2 * Real.sqrt 2 = 2 := Real.mul_self_sqrt (by norm_num)
  have h2le : Real.sqrt 2 ≤ 2 := by nlinarith [Real.sqrt_nonneg 2]
  have hsin2 : Real.sin (Real.pi / 8) * Real.sin (Real.pi / 8) = (2 - Real.sqrt 2) / 4 := by
    rw [Real.sin_pi_div_eight]
    rw [show Real.sqrt (2 - Real.sqrt 2) / 2 * (Real.sqrt (2 - Real.sqrt 2) / 2) =
        Real.sqrt (2 - Real.sqrt 2) * Real.sqrt (2 - Real.sqrt 2) / 4 by ring]
    rw [Real.mul_self_sqrt (by linarith)]
  linear_combination hsin2 + (Real.sqrt 2 / 8) * h2sq

/-- Helper: the distance from the center of bbox (0, 90, 0, 180) to its
north-east corner. -/
theorem dist_ne_b0 : getHaversineDistance 45 90 90 180 = 6371 * (2 * (Real.pi / 8)) := by
  unfold getHaversineDistance havDistOfA
  rw [haversineA_ne_b0]
  have hsin0 : 0 ≤ Real.sin (Real.pi / 8) :=
    Real.sin_nonneg_of_nonneg_of_le_pi (by positivity) (by linarith [Real.pi_pos])
  have hcos0 : 0 ≤ Real.cos (Real.pi / 8) := by
    apply Real.cos_nonneg_of_mem_Icc
    constructor
    · linarith [Real.pi_pos]
    · linarith [Real.pi_pos]
  have h1ma : 1 - Real.sin (Real.pi / 8) * Real.sin (Real.pi / 8) =
      Real.cos (Real.pi / 8) * Real.cos (Real.pi / 8) := by
    nlinarith [Real.sin_sq_add_cos_sq (Real.pi / 8)]
  rw [h1ma, Real.sqrt_mul_self hsin0, Real.sqrt_mul_self hcos0]
  have hcpos : 0 < Real.cos (Real.pi / 8) := by
    apply Real.cos_pos_of_mem_Ioo
    constructor
    · linarith [Real.pi_pos]
    · linarith [Real.pi_pos]
  unfold atan2
  rw [if_pos hcpos]
  rw [← Real.tan_eq_sin_div_cos]
  rw [Real.arctan_tan (by linarith [Real.pi_pos]) (by linarith [Real.pi_pos])]

/-- Helper: the distance from the center of bbox (0, 90, 0, 180) to its
south-east corner: exactly twice the north-east distance. -/
theorem dist_se_b0 : getHaversineDistance 45 90 0 180 = 6371 * (2 * (Real.pi / 4)) := by
  unfold getHaversineDistance havDistOfA
  rw [haversineA_se_b0]
  rw [show (1 : ℝ) - 1 / 2 = 1 / 2 by norm_num]
  have hpos : 0 < Real.sqrt (1 / 2) := Real.sqrt_pos.mpr (by norm_num)
  unfold atan2
  rw [if_pos hpos]
  rw [div_self (ne_of_gt hpos), Real.arctan_one]

/-- C1 counterexample: for the bounding box (south, north, west, east) =
(0, 90, 0, 180) — which satisfies south ≤ north — the nautical-mile
distance from the returned center (45, 90) to the south-east corner
(0, 180) strictly exceeds the returned radius, so the produced circle does
not contain all four corners of the box. -/
theorem C1_counterexample :
    ((0 : ℝ) ≤ 90) ∧
    ((bboxToCenterRadius ⟨0, 90, 0, 180⟩).dist : ℝ) <
      getHaversineDistance (bboxToCenterRadius ⟨0, 90, 0, 180⟩).lat
        (bboxToCenterRadius ⟨0, 90, 0, 180⟩).lon 0 180 * KM_TO_NAUTICAL_MILES := by
  refine ⟨by norm_num, ?_⟩
  have hlat : (bboxToCenterRadius ⟨0, 90, 0, 180⟩).lat = 45 := by
    show ((0 : ℝ) + 90) / 2 = 45
    norm_num
  have hlon : (bboxToCenterRadius ⟨0, 90, 0, 180⟩).lon = 90 := by
    show ((0 : ℝ) + 180) / 2 = 90
    norm_num
  have hdist : (bboxToCenterRadius ⟨0, 90, 0, 180⟩).dist =
      ⌈getHaversineDistance 45 90 90 180 * KM_TO_NAUTICAL_MILES⌉ := by
    show ⌈getHaversineDistance (((0 : ℝ) + 90) / 2) (((0 : ℝ) + 180) / 2) 90 180 *
        KM_TO_NAUTICAL_MILES⌉ = _
    norm_num
  rw [hlat, hlon, hdist, dist_ne_b0, dist_se_b0]
  have hceil := Int.ceil_lt_add_one (6371 * (2 * (Real.pi / 8)) * KM_TO_NAUTICAL_MILES)
  have hx : (1 : ℝ) ≤ 6371 * (2 * (Real.pi / 8)) * KM_TO_NAUTICAL_MILES := by
    unfold KM_TO_NAUTICAL_MILES
    nlinarith [Real.pi_gt_three]
  linarith [hceil, hx]

/-- C1 (amended): for a bounding box with south ≤ north, both latitudes
within [-90, 90], and cos(south°) ≤ cos(north°) (the south edge at least
as far from the equator as the north edge — in particular whenever
|south| ≥ |north|), the circle produced by bboxToCenterRadius contains all
four corners: the nautical-mile distance from the center to each corner is
at most the returned radius. Without the cosine condition a south corner
can lie strictly outside the returned radius, as the counterexample shows,
because the radius only measures the north-east corner. -/
theorem C1_amended_contains (b : Bbox)
    (h1 : -90 ≤ b.lamin) (h2 : b.lamin ≤ b.lamax) (h3 : b.lamax ≤ 90)
    (h4 : Real.cos (deg2rad b.lamin) ≤ Real.cos (deg2rad b.lamax))
    (clat clon : ℝ)
    (hclat : clat = b.lamin ∨ clat = b.lamax)
    (hclon : clon = b.lomin ∨ clon = b.lomax) :
    getHaversineDistance ((b.lamin + b.lamax) / 2) ((b.lomin + b.lomax) / 2) clat clon *
        KM_TO_NAUTICAL_MILES ≤ ((bboxToCenterRadius b).dist : ℝ) := by
  have hpi := Real.pi_pos
  have hrange : ∀ x : ℝ, -90 ≤ x → x ≤ 90 → 0 ≤ Real.cos (deg2rad x) := by
    intro x hx1 hx2
    apply Real.cos_nonneg_of_mem_Icc
    unfold deg2rad
    constructor
    · nlinarith [hpi]
    · nlinarith [hpi]
  have hcoss : 0 ≤ Real.cos (deg2rad b.lamin) := hrange _ h1 (by linarith)
  have hcosn : 0 ≤ Real.cos (deg2rad b.lamax) := hrange _ (by linarith) h3
  have hcosc : 0 ≤ Real.cos (deg2rad ((b.lamin + b.lamax) / 2)) :=
    hrange _ (by linarith) (by linarith)
  have hcoscl : 0 ≤ Real.cos (deg2rad clat) := by
    rcases hclat with rfl | rfl
    exacts [hcoss, hcosn]
  have hcosle : Real.cos (deg2rad clat) ≤ Real.cos (deg2rad b.lamax) := by
    rcases hclat with rfl | rfl
    · exact h4
    · exact le_refl _
  have hlat2 : Real.sin (deg2rad (clat - (b.lamin + b.lamax) / 2) / 2) *
      Real.sin (deg2rad (clat - (b.lamin + b.lamax) / 2) / 2) =
      Real.sin (deg2rad (b.lamax - (b.lamin + b.lamax) / 2) / 2) *
      Real.sin (deg2rad (b.lamax - (b.lamin + b.lamax) / 2) / 2) := by
    rcases hclat with rfl | rfl
    · have hneg : deg2rad (b.lamin - (b.lamin + b.lamax) / 2) / 2 =
          -(deg2rad (b.lamax - (b.lamin + b.lamax) / 2) / 2) := by
        unfold deg2rad
        ring
      rw [hneg, Real.sin_neg]
      ring
    · rfl
  have hlon2 : Real.sin (deg2rad (clon - (b.lomin + b.lomax) / 2) / 2) *
      Real.sin (deg2rad (clon - (b.lomin + b.lomax) / 2) / 2) =
      Real.sin (deg2rad (b.lomax - (b.lomin + b.lomax) / 2) / 2) *
      Real.sin (deg2rad (b.lomax - (b.lomin + b.lomax) / 2) / 2) := by
    rcases hclon with rfl | rfl
    · have hneg : deg2rad (b.lomin - (b.lomin + b.lomax) / 2) / 2 =
          -(deg2rad (b.lomax - (b.lomin + b.lomax) / 2) / 2) := by
        unfold deg2rad
        ring
      rw [hneg, Real.sin_neg]
      ring
    · rfl
  have hAle : haversineA ((b.lamin + b.lamax) / 2) ((b.lomin + b.lomax) / 2) clat clon ≤
      haversineA ((b.lamin + b.lamax) / 2) ((b.lomin + b.lomax) / 2) b.lamax b.lomax := by
    show Real.sin (deg2rad (clat - (b.lamin + b.lamax) / 2) / 2) *
        Real.sin (deg2rad (clat - (b.lamin + b.lamax) / 2) / 2) +
        Real.cos (deg2rad ((b.lamin + b.lamax) / 2)) * Real.cos (deg2rad clat) *
          Real.sin (deg2rad (clon - (b.lomin + b.lomax) / 2) / 2) *
          Real.sin (deg2rad (clon - (b.lomin + b.lomax) / 2) / 2) ≤
      Real.sin (deg2rad (b.lamax - (b.lamin + b.lamax) / 2) / 2) *
        Real.sin (deg2rad (b.lamax - (b.lamin + b.lamax) / 2) / 2) +
        Real.cos (deg2rad ((b.lamin + b.lamax) / 2)) * Real.cos (deg2rad b.lamax) *
          Real.sin (deg2rad (b.lomax - (b.lomin + b.lomax) / 2) / 2) *
          Real.sin (deg2rad (b.lomax - (b.lomin + b.lomax) / 2) / 2)
    nlinarith [hlat2, hlon2, hcosle, hcosc, hcoscl, hcosn,
      mul_self_nonneg (Real.sin (deg2rad (b.lomax - (b.lomin + b.lomax) / 2) / 2)),
      mul_le_mul_of_nonneg_left (le_of_eq hlon2) (mul_nonneg hcosc hcoscl),
      mul_le_mul_of_nonneg_right (mul_le_mul_of_nonneg_left hcosle hcosc)
        (mul_self_nonneg (Real.sin (deg2rad (b.lomax - (b.lomin + b.lomax) / 2) / 2)))]
  have hA1 : haversineA ((b.lamin + b.lamax) / 2) ((b.lomin + b.lomax) / 2)
      b.lamax b.lomax ≤ 1 :=
    haversineA_le_one _ _ _ _ hcosc hcosn
  have hmono := havDistOfA_mono _ _ hAle hA1
  have hK : (0 : ℝ) ≤ KM_TO_NAUTICAL_MILES := by
    unfold KM_TO_NAUTICAL_MILES
    norm_num
  have hstep : getHaversineDistance ((b.lamin + b.lamax) / 2) ((b.lomin + b.lomax) / 2)
      clat clon * KM_TO_NAUTICAL_MILES ≤
      getHaversineDistance ((b.lamin + b.lamax) / 2) ((b.lomin + b.lomax) / 2)
        b.lamax b.lomax * KM_TO_NAUTICAL_MILES :=
    mul_le_mul_of_nonneg_right hmono hK
  refine le_trans hstep ?_
  show getHaversineDistance ((b.lamin + b.lamax) / 2) ((b.lomin + b.lomax) / 2)
      b.lamax b.lomax * KM_TO_NAUTICAL_MILES ≤
    ((⌈getHaversineDistance ((b.lamin + b.lamax) / 2) ((b.lomin + b.lomax) / 2)
        b.lamax b.lomax * KM_TO_NAUTICAL_MILES⌉ : ℤ) : ℝ)
  exact Int.le_ceil _

/-- C1 witness: the theorem applied to the degenerate box (0, 0, 0, 0) and
its (0, 0) corner. -/
theorem C1_witness :
    getHaversineDistance ((0 + 0) / 2) ((0 + 0) / 2) 0 0 * KM_TO_NAUTICAL_MILES ≤
      ((bboxToCenterRadius ⟨0, 0, 0, 0⟩).dist : ℝ) :=
  C1_amended_contains ⟨0, 0, 0, 0⟩ (by norm_num) le_rfl (by norm_num) le_rfl 0 0
    (Or.inl rfl) (Or.inl rfl)
